import Mathlib

/-!
Shallow embedding of `src/python/pipeline_orchestrator.py`
(`SnowflakePipelineOrchestrator`), a batch pipeline that moves CDC records
into a two-tier analytical warehouse.

Modelling choices:
* The Snowflake query executor is an external collaborator.  Its behaviour in
  one run is captured by a `World`: the data it serves (stream catalog, stream
  buffers, staged tables, metering history, session identity, the clock) plus
  a per-statement failure oracle `fails : Stmt → Option String` (`some msg`
  means executing that statement raises an exception with text `msg`, as
  `str(e)` in Python).  No query result in the source depends on state the
  orchestrator itself mutates, so the `World` is read-only during a run.
* The state mutated by a run is `St`: the analytics fact tables, the current
  warehouse of the session, the audit log, plus two ghost fields used only by
  the specification — the ordered `trace` of issued statements and a call
  counter for `populate_analytics_tables`.
* Machine floats (`float(row[1])`) are modelled as `ℚ`; SQL timestamps as
  `Int` (seconds); the wall-clock duration string of the final audit entry is
  an external input (`durationText`).
* Each Python method becomes a function `World → St → St × result`; a method
  that can raise returns `St × Option String` (`some` = propagated exception).
-/

/-- A row of `INFORMATION_SCHEMA.STREAMS` (the columns the orchestrator reads,
plus the `schema_name` it filters on). -/
structure StreamsRow where
  schema_name : String
  stream_name : String
  table_name : String
  stale : Bool
  stale_after : Int
deriving DecidableEq, Repr

/-- The dict built per stream by `check_stream_status`. -/
structure StreamRec where
  stream_name : String
  table_name : String
  is_stale : Bool
  stale_after : Int
deriving DecidableEq, Repr

/-- A row of a staged (dynamic) table: an opaque payload plus the
`_cdc_operation` discriminator column. -/
structure Row where
  payload : String
  cdc_operation : String
deriving DecidableEq, Repr

/-- A row of `SNOWFLAKE.ACCOUNT_USAGE.WAREHOUSE_METERING_HISTORY`. -/
structure MeteringRow where
  warehouse_name : String
  credits_used : ℚ
  start_time : Int
deriving DecidableEq, Repr

/-- A row of `AUDIT.ACCESS_LOG` as inserted by `log_audit_entry`. -/
structure AuditEntry where
  user_name : String
  role_name : String
  query_text : String
  database_name : String
  schema_name : String
  execution_status : String
deriving DecidableEq, Repr

/-- The SQL statements the orchestrator issues, abstracted to their
parameters.  Each constructor corresponds to one `cursor.execute` site in the
source. -/
inductive Stmt where
  | useWarehouse (wh : String)
  | streamsStatusQuery
  | streamCount (stream_name : String)
  | dynTableStatus (name : String) (schema_name : String)
  | truncate (tbl : String)
  | insertFrom (fact : String) (staged : String)
  | warehouseCosts
  | auditInsert (query_text : String)
deriving DecidableEq, Repr

/-- Read-only collaborator state for one run: the data the warehouse serves
and the failure oracle of the executor. -/
structure World where
  fails : Stmt → Option String
  streamsTable : List StreamsRow
  streamRows : String → List Row
  staged : String → List Row
  metering : List MeteringRow
  now : Int
  currentUser : String
  currentRole : String
  durationText : String

/-- State mutated during a run.  `trace` and `populateCalls` are ghost
instrumentation: the ordered list of statements handed to the executor and
the number of invocations of `populate_analytics_tables`. -/
structure St where
  facts : String → List Row
  currentWarehouse : String
  auditLog : List AuditEntry
  trace : List Stmt
  populateCalls : Nat

/-- The fixed config dict built in `main()` (credential fields omitted: they
do not reach the orchestration logic). -/
structure Config where
  database : String
  schema : String
  init_warehouse : String
  cdc_warehouse : String
  interactive_warehouse : String
deriving DecidableEq, Repr

def prodConfig : Config :=
  { database := "CLINICAL_DATA_PIPELINE"
    schema := "RAW_DATA"
    init_warehouse := "CLINICAL_INIT_WH"
    cdc_warehouse := "CLINICAL_CDC_WH"
    interactive_warehouse := "CLINICAL_INTERACTIVE_WH" }

/-- Effect of a successfully executed statement on the mutable state.
`truncate` empties a fact table, `insertFrom` appends the non-`DELETE` rows
of the staged source, `auditInsert` appends one `AUDIT.ACCESS_LOG` row with
the session identity, the fixed database/schema labels and the hardcoded
`'SUCCESS'` status.  Pure reads change nothing. -/
def applyStmt (w : World) (st : St) : Stmt → St
  | .useWarehouse wh => { st with currentWarehouse := wh }
  | .truncate t => { st with facts := fun x => if x = t then [] else st.facts x }
  | .insertFrom f s =>
      { st with facts := fun x =>
          if x = f then
            st.facts f ++ (w.staged s).filter (fun r => !(r.cdc_operation == "DELETE"))
          else st.facts x }
  | .auditInsert q =>
      { st with auditLog := st.auditLog ++
          [{ user_name := w.currentUser
             role_name := w.currentRole
             query_text := q
             database_name := "CLINICAL_DATA_PIPELINE"
             schema_name := "PIPELINE"
             execution_status := "SUCCESS" }] }
  | _ => st

/-- Hand one statement to the executor: it is recorded in the trace, then
either raises (per the failure oracle, with no effect) or takes effect. -/
def issue (w : World) (st : St) (s : Stmt) : St × Option String :=
  let st := { st with trace := st.trace ++ [s] }
  match w.fails s with
  | some e => (st, some e)
  | none => (applyStmt w st s, none)

/-- The audit row `log_audit_entry` inserts for a given `query_text`. -/
def auditRow (w : World) (q : String) : AuditEntry :=
  { user_name := w.currentUser
    role_name := w.currentRole
    query_text := q
    database_name := "CLINICAL_DATA_PIPELINE"
    schema_name := "PIPELINE"
    execution_status := "SUCCESS" }

/-- Ordering used by the `ORDER BY stream_name` clause of the stream-status
query. -/
def streamLe (a b : StreamsRow) : Prop := a.stream_name ≤ b.stream_name

instance : DecidableRel streamLe := fun a b =>
  inferInstanceAs (Decidable (a.stream_name ≤ b.stream_name))

instance : IsTotal StreamsRow streamLe :=
  ⟨fun a b => le_total a.stream_name b.stream_name⟩

instance : IsTrans StreamsRow streamLe :=
  ⟨fun _ _ _ h h' => le_trans h h'⟩

/-- Result set of the stream-status query: the catalog rows of schema
`RAW_DATA`, ordered by stream name. -/
def streamsQueryRows (w : World) : List StreamsRow :=
  List.insertionSort streamLe
    (w.streamsTable.filter (fun r => r.schema_name == "RAW_DATA"))

/-- `check_stream_status`: runs the stream-status query; on success returns
one dict per row, on any executor error returns `[]` (never raises). -/
def check_stream_status (w : World) (st : St) : St × List StreamRec :=
  let p := issue w st .streamsStatusQuery
  match p.2 with
  | some _ => (p.1, [])
  | none => (p.1, (streamsQueryRows w).map (fun row =>
      { stream_name := row.stream_name
        table_name := row.table_name
        is_stale := row.stale
        stale_after := row.stale_after }))

/-- `get_stream_change_count`: `SELECT COUNT(*) FROM RAW_DATA.<stream>`;
on success the number of rows in the stream's change buffer, on any executor
error `0` (never raises). -/
def get_stream_change_count (w : World) (st : St) (stream_name : String) :
    St × Nat :=
  let p := issue w st (.streamCount stream_name)
  match p.2 with
  | some _ => (p.1, 0)
  | none => (p.1, (w.streamRows stream_name).length)

/-- The `dynamic_tables` list of `refresh_dynamic_tables`. -/
def dynamic_tables : List String :=
  ["STAGING.DT_PATIENTS", "STAGING.DT_ENCOUNTERS", "STAGING.DT_PRESCRIPTIONS",
   "STAGING.DT_LAB_RESULTS", "STAGING.DT_VITAL_SIGNS", "STAGING.DT_PATIENT_SUMMARY"]

/-- `refresh_dynamic_tables`: switches to the CDC warehouse (NOT inside a
try/except — a failure there propagates), then checks each dynamic table's
status inside a per-table try/except; the query result is only logged. -/
def refresh_dynamic_tables (cfg : Config) (w : World) (st : St) :
    St × Option String :=
  let p := issue w st (.useWarehouse cfg.cdc_warehouse)
  match p.2 with
  | some e => (p.1, some e)
  | none =>
    (dynamic_tables.foldl
      (fun st table =>
        (issue w st (.dynTableStatus ((table.splitOn ".").getD 1 "")
                                     ((table.splitOn ".").getD 0 ""))).1)
      p.1, none)

/-- The `analytics_queries` list of `populate_analytics_tables`, in source
order: one TRUNCATE and one filtered INSERT per entity. -/
def analytics_queries : List Stmt :=
  [ .truncate "ANALYTICS.PATIENTS_FACT",
    .insertFrom "ANALYTICS.PATIENTS_FACT" "STAGING.DT_PATIENTS",
    .truncate "ANALYTICS.ENCOUNTERS_FACT",
    .insertFrom "ANALYTICS.ENCOUNTERS_FACT" "STAGING.DT_ENCOUNTERS",
    .truncate "ANALYTICS.PRESCRIPTIONS_FACT",
    .insertFrom "ANALYTICS.PRESCRIPTIONS_FACT" "STAGING.DT_PRESCRIPTIONS",
    .truncate "ANALYTICS.LAB_RESULTS_FACT",
    .insertFrom "ANALYTICS.LAB_RESULTS_FACT" "STAGING.DT_LAB_RESULTS",
    .truncate "ANALYTICS.VITAL_SIGNS_FACT",
    .insertFrom "ANALYTICS.VITAL_SIGNS_FACT" "STAGING.DT_VITAL_SIGNS" ]

/-- `populate_analytics_tables`: switches to the interactive warehouse (NOT
inside a try/except — a failure there propagates), then runs the ten
analytics statements, each inside its own try/except (a statement failure is
logged and the loop continues). -/
def populate_analytics_tables (cfg : Config) (w : World) (st : St) :
    St × Option String :=
  let st := { st with populateCalls := st.populateCalls + 1 }
  let p := issue w st (.useWarehouse cfg.interactive_warehouse)
  match p.2 with
  | some e => (p.1, some e)
  | none =>
    (analytics_queries.foldl (fun st q => (issue w st q).1) p.1, none)

/-- The three warehouse names in the `IN (...)` filter of the cost query. -/
def tracked_warehouses : List String :=
  ["CLINICAL_INIT_WH", "CLINICAL_CDC_WH", "CLINICAL_INTERACTIVE_WH"]

/-- Metering rows inside the trailing 7-day window and belonging to one of
the three tracked warehouses (the `WHERE` clause of the cost query). -/
def windowRecs (w : World) : List MeteringRow :=
  w.metering.filter (fun m =>
    decide (w.now - 7 * 86400 ≤ m.start_time) &&
    tracked_warehouses.contains m.warehouse_name)

/-- Result rows of the cost query: one `(warehouse, SUM(credits_used),
COUNT(*))` group per warehouse that has at least one window record. -/
def costsQueryRows (w : World) : List (String × ℚ × Nat) :=
  (((windowRecs w).map (fun m => m.warehouse_name)).dedup).map (fun wh =>
    let ws := (windowRecs w).filter (fun m => m.warehouse_name == wh)
    (wh, ((ws.map (fun m => m.credits_used)).sum, ws.length)))

/-- `get_warehouse_costs`: runs the cost query and builds the
warehouse → {credits, queries} mapping (as an association list in row order);
on any executor error returns the empty mapping (never raises). -/
def get_warehouse_costs (w : World) (st : St) :
    St × List (String × ℚ × Nat) :=
  let p := issue w st .warehouseCosts
  match p.2 with
  | some _ => (p.1, [])
  | none => (p.1, costsQueryRows w)

/-- `log_audit_entry`: inserts one `AUDIT.ACCESS_LOG` row whose `query_text`
is `"<event_type>: <details>"`; an insert failure is caught and only logged,
so the function is total and never raises (hence no error component in its
type). -/
def log_audit_entry (w : World) (st : St) (event_type details : String) : St :=
  (issue w st (.auditInsert (event_type ++ ": " ++ details))).1

/-- Rendering of `json.dumps(costs)` used in the COST_TRACKING audit detail
(the exact serialisation format is irrelevant to every property below). -/
def dumpCosts (costs : List (String × ℚ × Nat)) : String :=
  "\x7b" ++ String.intercalate ", " (costs.map (fun p =>
    "\"" ++ p.1 ++ "\": \x7b\"credits\": " ++ toString p.2.1 ++
    ", \"queries\": " ++ toString p.2.2 ++ "\x7d")) ++ "\x7d"

/-- `run_pipeline`: the orchestration sequence.  Steps 1–6 run inside one
try/except; the only raise sites are the two warehouse switches (every other
component catches its own errors), and the handler logs a PIPELINE_ERROR
audit entry with the exception text and returns `False`. -/
def run_pipeline (cfg : Config) (w : World) (st : St) : St × Bool :=
  let p1 := check_stream_status w st
  let st := log_audit_entry w p1.1 "STREAM_CHECK"
      ("Checked " ++ toString p1.2.length ++ " streams")
  let p2 := p1.2.foldl
      (fun acc stream =>
        let q := get_stream_change_count w acc.1 stream.stream_name
        (q.1, acc.2 + q.2))
      (st, 0)
  let p3 := refresh_dynamic_tables cfg w p2.1
  match p3.2 with
  | some e => (log_audit_entry w p3.1 "PIPELINE_ERROR" e, false)
  | none =>
    let st := log_audit_entry w p3.1 "DYNAMIC_TABLES" "Checked dynamic table status"
    let p4 : St × Option String :=
      if p2.2 > 0 then
        let q := populate_analytics_tables cfg w st
        match q.2 with
        | some e => (q.1, some e)
        | none =>
          (log_audit_entry w q.1 "ANALYTICS_REFRESH"
            ("Processed " ++ toString p2.2 ++ " changes"), none)
      else (st, none)
    match p4.2 with
    | some e => (log_audit_entry w p4.1 "PIPELINE_ERROR" e, false)
    | none =>
      let p5 := get_warehouse_costs w p4.1
      let st := log_audit_entry w p5.1 "COST_TRACKING"
          ("Weekly costs: " ++ dumpCosts p5.2)
      let st := log_audit_entry w st "PIPELINE_COMPLETE"
          ("Duration: " ++ w.durationText)
      (st, true)

/-- `main()`: exit code 0 iff the connection succeeds and `run_pipeline`
returns `True`. -/
def mainExit (connectOk : Bool) (w : World) (st : St) : Nat :=
  if connectOk then (if (run_pipeline prodConfig w st).2 then 0 else 1) else 1

/-! ### Pure value-level descriptions of the query results

Query results depend only on the `World`, never on the mutable `St`; these
definitions name them for use in specifications. -/

/-- The stream list `check_stream_status` returns, as a function of the
world alone. -/
def streamsVal (w : World) : List StreamRec :=
  match w.fails .streamsStatusQuery with
  | some _ => []
  | none => (streamsQueryRows w).map (fun row =>
      { stream_name := row.stream_name
        table_name := row.table_name
        is_stale := row.stale
        stale_after := row.stale_after })

/-- The count `get_stream_change_count` returns for one stream, as a function
of the world alone. -/
def countVal (w : World) (stream_name : String) : Nat :=
  match w.fails (.streamCount stream_name) with
  | some _ => 0
  | none => (w.streamRows stream_name).length

/-- The summed pending-change count across all streams, as computed by
steps 1–2 of `run_pipeline`. -/
def pendingTotal (w : World) : Nat :=
  ((streamsVal w).map (fun s => countVal w s.stream_name)).sum

/-- The cost mapping `get_warehouse_costs` returns, as a function of the
world alone. -/
def costsVal (w : World) : List (String × ℚ × Nat) :=
  match w.fails .warehouseCosts with
  | some _ => []
  | none => costsQueryRows w

/-- The status statements issued by the loop of `refresh_dynamic_tables`. -/
def dynStatusStmts : List Stmt :=
  dynamic_tables.map (fun table =>
    .dynTableStatus ((table.splitOn ".").getD 1 "") ((table.splitOn ".").getD 0 ""))

/-- Number of audit-log writes attempted in a statement trace. -/
def auditWrites (tr : List Stmt) : Nat :=
  (tr.filter (fun s => match s with | .auditInsert _ => true | _ => false)).length

/-! ### Basic lemmas about statement execution -/

theorem applyStmt_trace (w : World) (st : St) (s : Stmt) :
    (applyStmt w st s).trace = st.trace := by
  cases s <;> rfl

theorem applyStmt_populateCalls (w : World) (st : St) (s : Stmt) :
    (applyStmt w st s).populateCalls = st.populateCalls := by
  cases s <;> rfl

theorem issue_trace (w : World) (st : St) (s : Stmt) :
    (issue w st s).1.trace = st.trace ++ [s] := by
  unfold issue
  cases h : w.fails s <;> simp [h, applyStmt_trace]

theorem issue_populateCalls (w : World) (st : St) (s : Stmt) :
    (issue w st s).1.populateCalls = st.populateCalls := by
  unfold issue
  cases h : w.fails s <;> simp [h, applyStmt_populateCalls]

theorem issue_auditLog_of_not_audit (w : World) (st : St) (s : Stmt)
    (h : ∀ q, s ≠ .auditInsert q) : (issue w st s).1.auditLog = st.auditLog := by
  unfold issue
  cases hf : w.fails s
  · simp [hf]
    cases s <;> first | rfl | exact absurd rfl (h _)
  · simp [hf]

/-- `check_stream_status` only records the query in the trace; its return
value is `streamsVal w`. -/
theorem check_stream_status_spec (w : World) (st : St) :
    check_stream_status w st =
      ({ st with trace := st.trace ++ [.streamsStatusQuery] }, streamsVal w) := by
  unfold check_stream_status issue streamsVal
  cases h : w.fails .streamsStatusQuery <;> simp [h, applyStmt]

/-- `get_stream_change_count` only records the query in the trace; its return
value is `countVal w stream_name`. -/
theorem get_stream_change_count_spec (w : World) (st : St) (n : String) :
    get_stream_change_count w st n =
      ({ st with trace := st.trace ++ [.streamCount n] }, countVal w n) := by
  unfold get_stream_change_count issue countVal
  cases h : w.fails (.streamCount n) <;> simp [h, applyStmt]

/-- `get_warehouse_costs` only records the query in the trace; its return
value is `costsVal w`. -/
theorem get_warehouse_costs_spec (w : World) (st : St) :
    get_warehouse_costs w st =
      ({ st with trace := st.trace ++ [.warehouseCosts] }, costsVal w) := by
  unfold get_warehouse_costs issue costsVal
  cases h : w.fails .warehouseCosts <;> simp [h, applyStmt]

/-- A dynamic-table status check never changes anything but the trace,
whether it succeeds or fails. -/
theorem issue_dynStatus (w : World) (st : St) (a b : String) :
    (issue w st (.dynTableStatus a b)).1 =
      { st with trace := st.trace ++ [.dynTableStatus a b] } := by
  unfold issue
  cases h : w.fails (.dynTableStatus a b) <;> simp [h, applyStmt]

/-- The status loop of `refresh_dynamic_tables` only extends the trace. -/
theorem dynFold_spec (w : World) (tables : List String) : ∀ st : St,
    (tables.foldl
      (fun st table =>
        (issue w st (.dynTableStatus ((table.splitOn ".").getD 1 "")
                                     ((table.splitOn ".").getD 0 ""))).1) st) =
      { st with trace := st.trace ++ tables.map (fun table =>
          .dynTableStatus ((table.splitOn ".").getD 1 "")
                          ((table.splitOn ".").getD 0 "")) } := by
  induction tables with
  | nil => intro st; simp
  | cons t ts ih =>
    intro st
    simp only [List.foldl_cons]
    rw [issue_dynStatus, ih]
    simp [List.append_assoc]

/-- Executing a tier switch: traced, and on success the session warehouse
changes. -/
theorem issue_useWarehouse (w : World) (st : St) (wh : String) :
    issue w st (.useWarehouse wh) =
      match w.fails (.useWarehouse wh) with
      | some e => ({ st with trace := st.trace ++ [.useWarehouse wh] }, some e)
      | none => ({ st with trace := st.trace ++ [.useWarehouse wh]
                           currentWarehouse := wh }, none) := by
  unfold issue
  cases h : w.fails (.useWarehouse wh) <;> simp [h, applyStmt]

/-- The `COUNT(*)` statements issued by step 2 of `run_pipeline`. -/
def countStmts (w : World) : List Stmt :=
  (streamsVal w).map (fun s => .streamCount s.stream_name)

/-- Step 2 of `run_pipeline` (the counting loop) only extends the trace, and
its accumulated total is `pendingTotal w`. -/
theorem countFold_spec (w : World) (streams : List StreamRec) : ∀ (st : St) (a : Nat),
    (streams.foldl
      (fun acc stream =>
        let q := get_stream_change_count w acc.1 stream.stream_name
        (q.1, acc.2 + q.2))
      (st, a)) =
      ({ st with trace := st.trace ++ streams.map (fun s => .streamCount s.stream_name) },
       a + (streams.map (fun s => countVal w s.stream_name)).sum) := by
  induction streams with
  | nil => intro st a; simp
  | cons s ss ih =>
    intro st a
    simp only [List.foldl_cons, get_stream_change_count_spec] at ih ⊢
    rw [ih]
    simp [List.append_assoc, Nat.add_assoc]

/-- A fold of bare statement executions extends the trace by exactly those
statements (whether each succeeds or fails). -/
theorem foldIssue_trace (w : World) (qs : List Stmt) : ∀ st : St,
    (qs.foldl (fun st q => (issue w st q).1) st).trace = st.trace ++ qs := by
  induction qs with
  | nil => intro st; simp
  | cons q qs ih =>
    intro st
    simp only [List.foldl_cons]
    rw [ih, issue_trace]
    simp

/-- A fold of bare statement executions never changes the populate-call
counter. -/
theorem foldIssue_populateCalls (w : World) (qs : List Stmt) : ∀ st : St,
    (qs.foldl (fun st q => (issue w st q).1) st).populateCalls = st.populateCalls := by
  induction qs with
  | nil => intro st; rfl
  | cons q qs ih =>
    intro st
    simp only [List.foldl_cons]
    rw [ih, issue_populateCalls]

/-- A fold of statement executions none of which is an audit insert leaves
the audit log unchanged. -/
theorem foldIssue_auditLog (w : World) (qs : List Stmt)
    (h : ∀ q ∈ qs, ∀ t, q ≠ .auditInsert t) : ∀ st : St,
    (qs.foldl (fun st q => (issue w st q).1) st).auditLog = st.auditLog := by
  induction qs with
  | nil => intro st; rfl
  | cons q qs ih =>
    intro st
    simp only [List.foldl_cons]
    rw [ih (fun q hq t => h q (List.mem_cons_of_mem _ hq) t),
      issue_auditLog_of_not_audit w st q (h q (List.mem_cons_self _ _))]

/-- A fold of statement executions touching only fact tables other than `k`
leaves fact table `k` unchanged. -/
theorem foldIssue_facts_other (w : World) (k : String) (qs : List Stmt)
    (h : ∀ q ∈ qs, q ≠ .truncate k ∧ ∀ s, q ≠ .insertFrom k s) : ∀ st : St,
    (qs.foldl (fun st q => (issue w st q).1) st).facts k = st.facts k := by
  induction qs with
  | nil => intro st; rfl
  | cons q qs ih =>
    intro st
    simp only [List.foldl_cons]
    rw [ih (fun q hq => h q (List.mem_cons_of_mem _ hq))]
    obtain ⟨h1, h2⟩ := h q (List.mem_cons_self _ _)
    unfold issue
    cases hf : w.fails q
    · simp only [hf]
      cases q with
      | truncate t =>
        simp only [applyStmt]
        have : ¬ k = t := fun hk => h1 (by rw [hk])
        simp [this]
      | insertFrom f s =>
        simp only [applyStmt]
        have : ¬ k = f := fun hk => h2 s (by rw [hk])
        simp [this]
      | _ => rfl
    · simp [hf]

/-- Full characterisation of `refresh_dynamic_tables`: the tier switch is
recorded, and on its failure the exception propagates before any status
check; on success the six status checks are traced and the session moves to
the CDC warehouse. -/
theorem refresh_dynamic_tables_spec (cfg : Config) (w : World) (st : St) :
    refresh_dynamic_tables cfg w st =
      match w.fails (.useWarehouse cfg.cdc_warehouse) with
      | some e => ({ st with trace := st.trace ++ [.useWarehouse cfg.cdc_warehouse] }, some e)
      | none => ({ st with
                    trace := st.trace ++ [.useWarehouse cfg.cdc_warehouse] ++ dynStatusStmts
                    currentWarehouse := cfg.cdc_warehouse }, none) := by
  unfold refresh_dynamic_tables
  rw [issue_useWarehouse]
  cases h : w.fails (.useWarehouse cfg.cdc_warehouse)
  · simp only [h]
    rw [dynFold_spec]
    simp [dynStatusStmts, List.append_assoc]
  · simp only [h]

/-- Full characterisation of `log_audit_entry`: the insert is always traced;
it either appends one `SUCCESS` row or (on an executor failure) appends
nothing, and in both cases the function returns normally. -/
theorem log_audit_entry_spec (w : World) (st : St) (et d : String) :
    log_audit_entry w st et d =
      match w.fails (.auditInsert (et ++ ": " ++ d)) with
      | some _ => { st with trace := st.trace ++ [.auditInsert (et ++ ": " ++ d)] }
      | none => { st with trace := st.trace ++ [.auditInsert (et ++ ": " ++ d)]
                          auditLog := st.auditLog ++ [auditRow w (et ++ ": " ++ d)] } := by
  unfold log_audit_entry issue
  cases h : w.fails (.auditInsert (et ++ ": " ++ d)) <;> simp [h, applyStmt, auditRow]

theorem log_audit_entry_populateCalls (w : World) (st : St) (et d : String) :
    (log_audit_entry w st et d).populateCalls = st.populateCalls := by
  unfold log_audit_entry
  rw [issue_populateCalls]

theorem log_audit_entry_trace (w : World) (st : St) (et d : String) :
    (log_audit_entry w st et d).trace =
      st.trace ++ [.auditInsert (et ++ ": " ++ d)] := by
  unfold log_audit_entry
  rw [issue_trace]

theorem log_audit_entry_auditLog_ok (w : World) (st : St) (et d : String)
    (h : w.fails (.auditInsert (et ++ ": " ++ d)) = none) :
    (log_audit_entry w st et d).auditLog =
      st.auditLog ++ [auditRow w (et ++ ": " ++ d)] := by
  rw [log_audit_entry_spec, h]

/-- `populate_analytics_tables` returns the error of the interactive tier
switch and nothing else: every other statement failure is swallowed. -/
theorem populate_ret (cfg : Config) (w : World) (st : St) :
    (populate_analytics_tables cfg w st).2 =
      w.fails (.useWarehouse cfg.interactive_warehouse) := by
  unfold populate_analytics_tables
  simp only [issue_useWarehouse]
  cases h : w.fails (.useWarehouse cfg.interactive_warehouse) <;> simp [h]

/-- The statements `populate_analytics_tables` issues: the tier switch, then
(when the switch does not raise) the ten analytics statements, irrespective
of their individual outcomes. -/
theorem populate_trace (cfg : Config) (w : World) (st : St) :
    (populate_analytics_tables cfg w st).1.trace =
      st.trace ++ [.useWarehouse cfg.interactive_warehouse] ++
        (match w.fails (.useWarehouse cfg.interactive_warehouse) with
         | some _ => []
         | none => analytics_queries) := by
  unfold populate_analytics_tables
  simp only [issue_useWarehouse]
  cases h : w.fails (.useWarehouse cfg.interactive_warehouse)
  · simp only [h]
    rw [foldIssue_trace]
  · simp [h]

theorem populate_auditLog (cfg : Config) (w : World) (st : St) :
    (populate_analytics_tables cfg w st).1.auditLog = st.auditLog := by
  unfold populate_analytics_tables
  simp only [issue_useWarehouse]
  cases h : w.fails (.useWarehouse cfg.interactive_warehouse)
  · simp only [h]
    rw [foldIssue_auditLog]
    intro q hq t
    revert hq
    simp [analytics_queries]
    rintro (rfl | rfl | rfl | rfl | rfl | rfl | rfl | rfl | rfl | rfl) <;> simp
  · simp [h]

theorem populate_populateCalls (cfg : Config) (w : World) (st : St) :
    (populate_analytics_tables cfg w st).1.populateCalls = st.populateCalls + 1 := by
  unfold populate_analytics_tables
  simp only [issue_useWarehouse]
  cases h : w.fails (.useWarehouse cfg.interactive_warehouse)
  · simp only [h]
    rw [foldIssue_populateCalls]
  · simp [h]

/-- Steps 5–6 of `run_pipeline` (cost query, COST_TRACKING and
PIPELINE_COMPLETE audit entries, `return True`), as a function of the state
reached after step 4. -/
def runTail (w : World) (st : St) : St × Bool :=
  (log_audit_entry w
    (log_audit_entry w { st with trace := st.trace ++ [.warehouseCosts] }
      "COST_TRACKING" ("Weekly costs: " ++ dumpCosts (costsVal w)))
    "PIPELINE_COMPLETE" ("Duration: " ++ w.durationText), true)

/-- Normal form of `run_pipeline`: steps 1–3 rewritten to explicit record
updates, the two possible exception sources exposed as matches. -/
theorem run_pipeline_eq (cfg : Config) (w : World) (st : St) :
    run_pipeline cfg w st =
      (let stB := log_audit_entry w { st with trace := st.trace ++ [.streamsStatusQuery] }
          "STREAM_CHECK" ("Checked " ++ toString (streamsVal w).length ++ " streams")
       let stC := { stB with trace := stB.trace ++ countStmts w }
       match w.fails (.useWarehouse cfg.cdc_warehouse) with
       | some e =>
          (log_audit_entry w
            { stC with trace := stC.trace ++ [.useWarehouse cfg.cdc_warehouse] }
            "PIPELINE_ERROR" e, false)
       | none =>
          let stE := log_audit_entry w
            { stC with
                trace := stC.trace ++ [.useWarehouse cfg.cdc_warehouse] ++ dynStatusStmts
                currentWarehouse := cfg.cdc_warehouse }
            "DYNAMIC_TABLES" "Checked dynamic table status"
          if 0 < pendingTotal w then
            let q := populate_analytics_tables cfg w stE
            match q.2 with
            | some e => (log_audit_entry w q.1 "PIPELINE_ERROR" e, false)
            | none =>
              runTail w (log_audit_entry w q.1 "ANALYTICS_REFRESH"
                ("Processed " ++ toString (pendingTotal w) ++ " changes"))
          else runTail w stE) := by
  unfold run_pipeline runTail
  simp only [check_stream_status_spec, countFold_spec, refresh_dynamic_tables_spec,
    get_warehouse_costs_spec, countStmts, pendingTotal, Nat.zero_add]
  cases h : w.fails (.useWarehouse cfg.cdc_warehouse)
  · simp only [h]
    by_cases hp : (List.map (fun s => countVal w s.stream_name) (streamsVal w)).sum > 0
    · simp only [if_pos hp, populate_ret]
      cases hi : w.fails (.useWarehouse cfg.interactive_warehouse) <;> simp only [hi]
    · simp only [if_neg hp]
  · simp only [h]

/-! ### Concrete runs used as witnesses and counterexamples -/

/-- An initial mutable state: empty fact tables, the connection warehouse
active, empty audit table, fresh ghost instrumentation. -/
def st0 : St :=
  { facts := fun _ => []
    currentWarehouse := "CLINICAL_INIT_WH"
    auditLog := []
    trace := []
    populateCalls := 0 }

/-- A world in which every statement succeeds and no data is present. -/
def wOk : World :=
  { fails := fun _ => none
    streamsTable := []
    streamRows := fun _ => []
    staged := fun _ => []
    metering := []
    now := 0
    currentUser := "PIPELINE_SVC"
    currentRole := "SYSADMIN"
    durationText := "0.42s" }

/-! ### C7 -/

/-- C7: for every query-executor failure, `get_stream_change_count` returns
0 and never raises (its type carries no error component: the except block
swallows everything); on success it returns the number of rows currently
visible in the named stream's change buffer. -/
theorem c7_stream_count_fail_soft (w : World) (st : St) (stream_name : String) :
    (get_stream_change_count w st stream_name).2 =
      match w.fails (.streamCount stream_name) with
      | some _ => 0
      | none => (w.streamRows stream_name).length := by
  rw [get_stream_change_count_spec]
  rfl

/-! ### C6 -/

/-- C6: every audit entry `log_audit_entry` appends has execution status
`SUCCESS`, whatever the outcome of the event being logged (the status is a
constant in the insert statement); a failure of the insert itself appends
nothing and is swallowed — `log_audit_entry` is a total function into `St`,
so no exception reaches the caller. -/
theorem c6_audit_status_hardcoded (w : World) (st : St) (event_type details : String) :
    (∀ e ∈ (log_audit_entry w st event_type details).auditLog,
        e ∈ st.auditLog ∨ e.execution_status = "SUCCESS") ∧
    ((log_audit_entry w st event_type details).auditLog = st.auditLog ∨
      (log_audit_entry w st event_type details).auditLog =
        st.auditLog ++ [auditRow w (event_type ++ ": " ++ details)]) ∧
    (auditRow w (event_type ++ ": " ++ details)).execution_status = "SUCCESS" := by
  rw [log_audit_entry_spec]
  cases h : w.fails (.auditInsert (event_type ++ ": " ++ details))
  · refine ⟨fun e he => ?_, Or.inr rfl, rfl⟩
    rcases List.mem_append.mp he with h1 | h1
    · exact Or.inl h1
    · exact Or.inr (by rw [List.mem_singleton.mp h1]; rfl)
  · exact ⟨fun e he => Or.inl he, Or.inl rfl, rfl⟩

/-! ### C8 -/

/-- C8: for every query-executor failure, `check_stream_status` returns the
empty sequence and never raises (total function, no error component); on
success it returns exactly the streams of the monitored `RAW_DATA` schema
(as a permutation of the catalog entries), ordered by stream name. -/
theorem c8_stream_status_fail_soft_ordered (w : World) (st : St) :
    (w.fails .streamsStatusQuery ≠ none → (check_stream_status w st).2 = []) ∧
    (w.fails .streamsStatusQuery = none →
      List.Sorted (· ≤ ·) ((check_stream_status w st).2.map (fun s => s.stream_name)) ∧
      List.Perm ((check_stream_status w st).2)
        ((w.streamsTable.filter (fun r => r.schema_name == "RAW_DATA")).map
          (fun row => { stream_name := row.stream_name, table_name := row.table_name,
                        is_stale := row.stale, stale_after := row.stale_after }))) := by
  rw [check_stream_status_spec]
  constructor
  · intro h
    unfold streamsVal
    cases hf : w.fails .streamsStatusQuery
    · exact absurd hf h
    · rfl
  · intro h
    have hv : streamsVal w = (streamsQueryRows w).map (fun row =>
        { stream_name := row.stream_name, table_name := row.table_name,
          is_stale := row.stale, stale_after := row.stale_after }) := by
      unfold streamsVal
      rw [h]
    constructor
    · show List.Sorted (· ≤ ·) ((streamsVal w).map (fun s => s.stream_name))
      rw [hv, List.map_map]
      exact List.pairwise_map.mpr
        (List.Pairwise.imp (fun hab => hab) (List.sorted_insertionSort streamLe _))
    · show List.Perm (streamsVal w) _
      rw [hv]
      exact (List.perm_insertionSort streamLe _).map _

/-- A world with three catalog streams, listed out of order, one of them in
a different schema. -/
def w8 : World :=
  { wOk with streamsTable :=
      [ { schema_name := "RAW_DATA", stream_name := "VITALS_STREAM",
          table_name := "VITALS", stale := false, stale_after := 5 },
        { schema_name := "OTHER", stream_name := "AAA_STREAM",
          table_name := "AAA", stale := true, stale_after := 1 },
        { schema_name := "RAW_DATA", stream_name := "ENCOUNTERS_STREAM",
          table_name := "ENCOUNTERS", stale := false, stale_after := 3 } ] }

theorem c8_witness :
    w8.fails .streamsStatusQuery = none ∧
    (List.Sorted (· ≤ ·) ((check_stream_status w8 st0).2.map (fun s => s.stream_name)) ∧
      List.Perm ((check_stream_status w8 st0).2)
        ((w8.streamsTable.filter (fun r => r.schema_name == "RAW_DATA")).map
          (fun row => { stream_name := row.stream_name, table_name := row.table_name,
                        is_stale := row.stale, stale_after := row.stale_after }))) :=
  ⟨rfl, (c8_stream_status_fail_soft_ordered w8 st0).2 rfl⟩

/-! ### C2 -/

/-- C2: whenever `populate_analytics_tables` runs and the interactive
tier-switch statement itself does not raise, the switch is issued first and
then each of the 5 entities receives exactly one TRUNCATE and exactly one
INSERT, in the fixed entity order of `analytics_queries` — with no
assumption on the outcome of those ten statements (each is isolated in its
own try/except).  A successfully executed INSERT appends exactly the staged
rows whose `_cdc_operation` is not `DELETE`. -/
theorem c2_populate_statement_order (cfg : Config) (w : World) (st : St)
    (hsw : w.fails (.useWarehouse cfg.interactive_warehouse) = none) :
    (populate_analytics_tables cfg w st).2 = none ∧
    (populate_analytics_tables cfg w st).1.trace =
      st.trace ++ [.useWarehouse cfg.interactive_warehouse] ++ analytics_queries ∧
    (∀ fact staged, Stmt.insertFrom fact staged ∈ analytics_queries →
      w.fails (.insertFrom fact staged) = none →
      ∀ st' : St, (issue w st' (.insertFrom fact staged)).1.facts fact =
        st'.facts fact ++
          (w.staged staged).filter (fun r => !(r.cdc_operation == "DELETE"))) := by
  refine ⟨by rw [populate_ret, hsw], ?_, ?_⟩
  · rw [populate_trace, hsw]
  · intro fact staged _ hok st'
    unfold issue
    rw [hok]
    simp [applyStmt]

theorem c2_witness :
    wOk.fails (.useWarehouse prodConfig.interactive_warehouse) = none ∧
    (populate_analytics_tables prodConfig wOk st0).2 = none ∧
    (populate_analytics_tables prodConfig wOk st0).1.trace =
      st0.trace ++ [.useWarehouse prodConfig.interactive_warehouse] ++ analytics_queries :=
  ⟨rfl, (c2_populate_statement_order prodConfig wOk st0 rfl).1,
    (c2_populate_statement_order prodConfig wOk st0 rfl).2.1⟩

/-- A TRUNCATE of a different table leaves fact table `k` unchanged. -/
theorem issue_facts_truncate_ne (w : World) (st : St) (k t : String) (hk : k ≠ t) :
    (issue w st (.truncate t)).1.facts k = st.facts k := by
  unfold issue
  cases hf : w.fails (.truncate t) <;> simp [hf, applyStmt, hk]

/-- An INSERT into a different table leaves fact table `k` unchanged. -/
theorem issue_facts_insertFrom_ne (w : World) (st : St) (k f s : String) (hk : k ≠ f) :
    (issue w st (.insertFrom f s)).1.facts k = st.facts k := by
  unfold issue
  cases hf : w.fails (.insertFrom f s) <;> simp [hf, applyStmt, hk]

/-! ### C10 -/

/-- C10: error isolation in `populate_analytics_tables` is per individual
statement, not per truncate/insert pair: when the PATIENTS TRUNCATE raises
but the paired INSERT succeeds, the INSERT is still issued and appends the
staged non-`DELETE` rows onto the never-truncated fact table, whatever the
outcome of the other entities' statements. -/
theorem c10_insert_runs_despite_truncate_failure (w : World) (st : St) (msg : String)
    (ht : w.fails (.truncate "ANALYTICS.PATIENTS_FACT") = some msg)
    (hi : w.fails (.insertFrom "ANALYTICS.PATIENTS_FACT" "STAGING.DT_PATIENTS") = none)
    (hsw : w.fails (.useWarehouse prodConfig.interactive_warehouse) = none) :
    Stmt.insertFrom "ANALYTICS.PATIENTS_FACT" "STAGING.DT_PATIENTS" ∈
      (populate_analytics_tables prodConfig w st).1.trace ∧
    (populate_analytics_tables prodConfig w st).1.facts "ANALYTICS.PATIENTS_FACT" =
      st.facts "ANALYTICS.PATIENTS_FACT" ++
        (w.staged "STAGING.DT_PATIENTS").filter (fun r => !(r.cdc_operation == "DELETE")) := by
  constructor
  · rw [populate_trace, hsw]
    simp [analytics_queries]
  · have e1 : ∀ st' : St, (issue w st' (.truncate "ANALYTICS.PATIENTS_FACT")).1 =
        { st' with trace := st'.trace ++ [.truncate "ANALYTICS.PATIENTS_FACT"] } := by
      intro st'
      unfold issue
      rw [ht]
    have e2 : ∀ st' : St,
        (issue w st' (.insertFrom "ANALYTICS.PATIENTS_FACT" "STAGING.DT_PATIENTS")).1.facts
            "ANALYTICS.PATIENTS_FACT" =
          st'.facts "ANALYTICS.PATIENTS_FACT" ++
            (w.staged "STAGING.DT_PATIENTS").filter (fun r => !(r.cdc_operation == "DELETE")) := by
      intro st'
      unfold issue
      rw [hi]
      simp [applyStmt]
    unfold populate_analytics_tables
    simp only [issue_useWarehouse, hsw]
    rw [show analytics_queries =
        Stmt.truncate "ANALYTICS.PATIENTS_FACT" ::
        Stmt.insertFrom "ANALYTICS.PATIENTS_FACT" "STAGING.DT_PATIENTS" ::
        [ Stmt.truncate "ANALYTICS.ENCOUNTERS_FACT",
          Stmt.insertFrom "ANALYTICS.ENCOUNTERS_FACT" "STAGING.DT_ENCOUNTERS",
          Stmt.truncate "ANALYTICS.PRESCRIPTIONS_FACT",
          Stmt.insertFrom "ANALYTICS.PRESCRIPTIONS_FACT" "STAGING.DT_PRESCRIPTIONS",
          Stmt.truncate "ANALYTICS.LAB_RESULTS_FACT",
          Stmt.insertFrom "ANALYTICS.LAB_RESULTS_FACT" "STAGING.DT_LAB_RESULTS",
          Stmt.truncate "ANALYTICS.VITAL_SIGNS_FACT",
          Stmt.insertFrom "ANALYTICS.VITAL_SIGNS_FACT" "STAGING.DT_VITAL_SIGNS" ] from rfl]
    simp only [List.foldl_cons, List.foldl_nil]
    simp [issue_facts_truncate_ne, issue_facts_insertFrom_ne, e2, e1]

/-- A world where only the PATIENTS TRUNCATE fails; the PATIENTS staged
table holds one live row and one DELETE-marked row. -/
def w10 : World :=
  { wOk with
    fails := fun s =>
      if s = .truncate "ANALYTICS.PATIENTS_FACT" then some "truncate failed" else none
    staged := fun t =>
      if t = "STAGING.DT_PATIENTS" then
        [ { payload := "p1", cdc_operation := "INSERT" },
          { payload := "p2", cdc_operation := "DELETE" } ]
      else [] }

/-- A state in which the PATIENTS fact table still holds a stale row. -/
def st10 : St :=
  { st0 with facts := fun t =>
      if t = "ANALYTICS.PATIENTS_FACT" then
        [ { payload := "old", cdc_operation := "INSERT" } ]
      else [] }

theorem c10_witness :
    w10.fails (.truncate "ANALYTICS.PATIENTS_FACT") = some "truncate failed" ∧
    w10.fails (.insertFrom "ANALYTICS.PATIENTS_FACT" "STAGING.DT_PATIENTS") = none ∧
    w10.fails (.useWarehouse prodConfig.interactive_warehouse) = none ∧
    Stmt.insertFrom "ANALYTICS.PATIENTS_FACT" "STAGING.DT_PATIENTS" ∈
      (populate_analytics_tables prodConfig w10 st10).1.trace ∧
    (populate_analytics_tables prodConfig w10 st10).1.facts "ANALYTICS.PATIENTS_FACT" =
      st10.facts "ANALYTICS.PATIENTS_FACT" ++
        (w10.staged "STAGING.DT_PATIENTS").filter (fun r => !(r.cdc_operation == "DELETE")) ∧
    (populate_analytics_tables prodConfig w10 st10).1.facts "ANALYTICS.PATIENTS_FACT" =
      [ { payload := "old", cdc_operation := "INSERT" },
        { payload := "p1", cdc_operation := "INSERT" } ] :=
  ⟨rfl, rfl, rfl,
    (c10_insert_runs_despite_truncate_failure w10 st10 "truncate failed" rfl rfl rfl).1,
    (c10_insert_runs_despite_truncate_failure w10 st10 "truncate failed" rfl rfl rfl).2,
    by decide⟩

/-! ### C9 -/

/-- A world whose metering history has a 7-day-window record for the CDC
warehouse only: the cost mapping then has a single key, not all three tier
names. -/
def w9 : World :=
  { wOk with metering :=
      [ { warehouse_name := "CLINICAL_CDC_WH", credits_used := 3, start_time := 0 } ] }

/-- C9 counterexample: with metering activity for just one tier, the mapping
`get_warehouse_costs` returns does not have all three tracked tier names as
keys — `CLINICAL_INIT_WH` is tracked but absent. -/
theorem c9_counterexample :
    w9.fails .warehouseCosts = none ∧
    (get_warehouse_costs w9 st0).2.map Prod.fst = ["CLINICAL_CDC_WH"] ∧
    "CLINICAL_INIT_WH" ∈ tracked_warehouses ∧
    "CLINICAL_INIT_WH" ∉ (get_warehouse_costs w9 st0).2.map Prod.fst := by
  refine ⟨rfl, by decide, by decide, by decide⟩

/-- C9 (amended): on success the mapping's key set is the subset of the
three tracked tier names that have at least one metering record in the
trailing 7-day window — every key is tracked and backed by a window record,
every window record's warehouse appears as a key, and each key maps to the
credit sum and query count of its window records; on any query error the
mapping is empty and no exception escapes (total function). -/
theorem c9_costs_mapping (w : World) (st : St) :
    (w.fails .warehouseCosts ≠ none → (get_warehouse_costs w st).2 = []) ∧
    (w.fails .warehouseCosts = none →
      (∀ p ∈ (get_warehouse_costs w st).2,
        p.1 ∈ tracked_warehouses ∧
        (∃ m ∈ windowRecs w, m.warehouse_name = p.1) ∧
        p.2.1 = (((windowRecs w).filter (fun m => m.warehouse_name == p.1)).map
          (fun m => m.credits_used)).sum ∧
        p.2.2 = ((windowRecs w).filter (fun m => m.warehouse_name == p.1)).length) ∧
      (∀ m ∈ windowRecs w, m.warehouse_name ∈ (get_warehouse_costs w st).2.map Prod.fst)) := by
  rw [get_warehouse_costs_spec]
  constructor
  · intro h
    unfold costsVal
    cases hf : w.fails .warehouseCosts
    · exact absurd hf h
    · rfl
  · intro h
    have hv : costsVal w = costsQueryRows w := by
      unfold costsVal
      rw [h]
    constructor
    · intro p hp
      have hp' : p ∈ costsQueryRows w := by
        have hq0 : p ∈ costsVal w := hp
        rwa [hv] at hq0
      unfold costsQueryRows at hp'
      obtain ⟨wh, hwh, hpe⟩ := List.mem_map.mp hp'
      obtain ⟨m, hm, hmn⟩ :=
        List.mem_map.mp (List.mem_dedup.mp hwh)
      subst hpe
      refine ⟨?_, ⟨m, hm, hmn⟩, rfl, rfl⟩
      have hm' := List.mem_filter.mp (by unfold windowRecs at hm; exact hm)
      have hc : tracked_warehouses.contains m.warehouse_name = true := by
        have := hm'.2
        simp only [Bool.and_eq_true] at this
        exact this.2
      rw [← hmn]
      exact List.elem_iff.mp hc
    · intro m hm
      have : m.warehouse_name ∈ ((windowRecs w).map
          (fun m => m.warehouse_name)).dedup :=
        List.mem_dedup.mpr (List.mem_map_of_mem _ hm)
      have h2 : (costsVal w).map Prod.fst =
          ((windowRecs w).map (fun m => m.warehouse_name)).dedup := by
        rw [hv]
        unfold costsQueryRows
        rw [List.map_map]
        rw [show (Prod.fst ∘ fun wh =>
            (wh, ((((windowRecs w).filter (fun m => m.warehouse_name == wh)).map
              (fun m => m.credits_used)).sum,
              ((windowRecs w).filter (fun m => m.warehouse_name == wh)).length))) =
            id from rfl]
        rw [List.map_id]
      show m.warehouse_name ∈ (costsVal w).map Prod.fst
      rw [h2]
      exact this

/-- The single metering record of `w9`. -/
def m9 : MeteringRow :=
  { warehouse_name := "CLINICAL_CDC_WH", credits_used := 3, start_time := 0 }

theorem c9_witness :
    w9.fails .warehouseCosts = none ∧
    "CLINICAL_CDC_WH" ∈ (get_warehouse_costs w9 st0).2.map Prod.fst :=
  ⟨rfl, by
    have hm : m9 ∈ windowRecs w9 := by decide
    exact ((c9_costs_mapping w9 st0).2 rfl).2 m9 hm⟩

/-! ### C1 -/

/-- A world where the stream-status query fails soft (so the summed pending
count is 0) and the switch to the CDC warehouse raises. -/
def w1 : World :=
  { wOk with fails := fun s =>
      match s with
      | .streamsStatusQuery => some "stream check down"
      | .useWarehouse "CLINICAL_CDC_WH" => some "cdc warehouse down"
      | _ => none }

/-- C1 counterexample: a run whose summed pending-change count is 0 (the
stream check failed soft, so no counts were summed) in which the populator
is indeed never invoked — but `run_pipeline` reports failure and the process
exits 1, because the CDC tier switch raised.  The claim's "still reports
overall success" does not hold of every zero-change run. -/
theorem c1_counterexample :
    pendingTotal w1 = 0 ∧
    (run_pipeline prodConfig w1 st0).1.populateCalls = 0 ∧
    (run_pipeline prodConfig w1 st0).2 = false ∧
    mainExit true w1 st0 = 1 := by
  refine ⟨by decide, by decide, by decide, by decide⟩

/-- C1 (amended): in every run whose summed pending-change count is 0,
`populate_analytics_tables` is never invoked; and when additionally no
unhandled error occurs — for a zero-change run the only possible one is a
failure of the CDC tier-switch statement — `run_pipeline` reports success
and the process exit code is 0. -/
theorem c1_zero_changes_skips_populator (w : World) (st : St)
    (h0 : pendingTotal w = 0) :
    (run_pipeline prodConfig w st).1.populateCalls = st.populateCalls ∧
    (w.fails (.useWarehouse prodConfig.cdc_warehouse) = none →
      (run_pipeline prodConfig w st).2 = true ∧ mainExit true w st = 0) := by
  rw [run_pipeline_eq]
  cases h : w.fails (.useWarehouse prodConfig.cdc_warehouse)
  · refine ⟨?_, fun _ => ⟨?_, ?_⟩⟩
    · simp [h, h0, runTail, log_audit_entry_populateCalls]
    · simp [h, h0, runTail]
    · unfold mainExit
      rw [run_pipeline_eq]
      simp [h, h0, runTail]
  · refine ⟨?_, fun hc => absurd hc (by simp)⟩
    simp [h, log_audit_entry_populateCalls]

theorem c1_witness :
    pendingTotal wOk = 0 ∧
    (run_pipeline prodConfig wOk st0).1.populateCalls = st0.populateCalls ∧
    wOk.fails (.useWarehouse prodConfig.cdc_warehouse) = none ∧
    (run_pipeline prodConfig wOk st0).2 = true ∧
    mainExit true wOk st0 = 0 :=
  ⟨by decide, (c1_zero_changes_skips_populator wOk st0 (by decide)).1, rfl,
    ((c1_zero_changes_skips_populator wOk st0 (by decide)).2 rfl).1,
    ((c1_zero_changes_skips_populator wOk st0 (by decide)).2 rfl).2⟩

/-! ### C3 -/

/-- C3: a fully successful run (every issued statement succeeds) reports
success and writes exactly 5 audit entries when the summed pending-change
count is positive (stream check, dynamic tables, analytics refresh, cost
tracking, pipeline complete) and exactly 4 when it is zero (the analytics
entry is skipped). -/
theorem c3_successful_run_audit_count (w : World) (st : St)
    (hAll : ∀ s, w.fails s = none) :
    (run_pipeline prodConfig w st).2 = true ∧
    (run_pipeline prodConfig w st).1.auditLog.length =
      st.auditLog.length + (if 0 < pendingTotal w then 5 else 4) := by
  rw [run_pipeline_eq]
  simp only [hAll, populate_ret]
  by_cases hp : 0 < pendingTotal w
  · simp only [if_pos hp, runTail]
    refine ⟨by trivial, ?_⟩
    simp [log_audit_entry_spec, hAll, populate_auditLog, List.length_append]
  · simp only [if_neg hp, runTail]
    refine ⟨by trivial, ?_⟩
    simp [log_audit_entry_spec, hAll, List.length_append]

/-- A world with one monitored stream holding one pending change. -/
def w3 : World :=
  { wOk with
    streamsTable :=
      [ { schema_name := "RAW_DATA", stream_name := "PATIENTS_STREAM",
          table_name := "PATIENTS", stale := false, stale_after := 9 } ]
    streamRows := fun n =>
      if n = "PATIENTS_STREAM" then [ { payload := "c1", cdc_operation := "INSERT" } ]
      else [] }

theorem c3_witness :
    (∀ s, w3.fails s = none) ∧
    0 < pendingTotal w3 ∧
    (run_pipeline prodConfig w3 st0).2 = true ∧
    (run_pipeline prodConfig w3 st0).1.auditLog.length =
      st0.auditLog.length + (if 0 < pendingTotal w3 then 5 else 4) :=
  ⟨fun _ => rfl, by decide,
    (c3_successful_run_audit_count w3 st0 (fun _ => rfl)).1,
    (c3_successful_run_audit_count w3 st0 (fun _ => rfl)).2⟩

/-! ### C4 -/

/-- Modelled from the spec: the orchestrator state machine of §4.7 (the
source has no explicit state variable; this is the spec's description,
introduced to compare its transition count against the audit behaviour of
the code). -/
inductive PState where
  | CONNECTING
  | CHECKING_STREAMS
  | COUNTING_CHANGES
  | CHECKING_STAGED_TABLES
  | POPULATING
  | SKIPPING
  | TRACKING_COSTS
  | COMPLETE
  | FAILED
deriving DecidableEq, Repr

/-- Modelled from the spec: the state sequence of a non-failing run,
`CONNECTING → CHECKING_STREAMS → COUNTING_CHANGES → CHECKING_STAGED_TABLES →
(POPULATING | SKIPPING) → TRACKING_COSTS → COMPLETE`. -/
def specStateSeq (populated : Bool) : List PState :=
  [ .CONNECTING, .CHECKING_STREAMS, .COUNTING_CHANGES, .CHECKING_STAGED_TABLES,
    if populated then .POPULATING else .SKIPPING, .TRACKING_COSTS, .COMPLETE ]

theorem auditWrites_append (a b : List Stmt) :
    auditWrites (a ++ b) = auditWrites a + auditWrites b := by
  simp [auditWrites, List.filter_append]

theorem auditWrites_countStmts (w : World) : auditWrites (countStmts w) = 0 := by
  unfold countStmts
  induction streamsVal w with
  | nil => rfl
  | cons s ss ih => simp [auditWrites, List.filter_cons]

theorem auditWrites_dynStatus : auditWrites dynStatusStmts = 0 := by decide

theorem auditWrites_analytics : auditWrites analytics_queries = 0 := by decide

theorem auditWrites_nil : auditWrites [] = 0 := rfl

theorem auditWrites_cons_audit (q : String) (l : List Stmt) :
    auditWrites (.auditInsert q :: l) = auditWrites l + 1 := by
  simp [auditWrites, List.filter_cons]

theorem auditWrites_cons_streams (l : List Stmt) :
    auditWrites (.streamsStatusQuery :: l) = auditWrites l := by
  simp [auditWrites, List.filter_cons]

theorem auditWrites_cons_useWH (wh : String) (l : List Stmt) :
    auditWrites (.useWarehouse wh :: l) = auditWrites l := by
  simp [auditWrites, List.filter_cons]

theorem auditWrites_cons_costs (l : List Stmt) :
    auditWrites (.warehouseCosts :: l) = auditWrites l := by
  simp [auditWrites, List.filter_cons]

theorem auditWrites_audit_single (q : String) : auditWrites [.auditInsert q] = 1 := rfl

theorem auditWrites_useWH (wh : String) : auditWrites [.useWarehouse wh] = 0 := rfl

theorem auditWrites_streams_single : auditWrites [.streamsStatusQuery] = 0 := rfl

theorem auditWrites_costs_single : auditWrites [.warehouseCosts] = 0 := rfl

/-- C4 counterexample: a fully successful zero-change run: the claimed state
sequence has 6 transitions, but only 4 audit writes occur and only 4 audit
entries exist — so it is false that every transition emits exactly one
audit entry. -/
theorem c4_counterexample :
    (run_pipeline prodConfig wOk st0).2 = true ∧
    auditWrites (run_pipeline prodConfig wOk st0).1.trace = 4 ∧
    (run_pipeline prodConfig wOk st0).1.auditLog.length = 4 ∧
    (specStateSeq false).length - 1 = 6 ∧
    (4 : Nat) ≠ 6 :=
  ⟨by decide, by decide, by decide, by decide, by decide⟩

/-- C4 (amended): in a fully successful run, each transition of the spec's
state sequence emits exactly one audit write before the next state proceeds,
EXCEPT the `COUNTING_CHANGES → CHECKING_STAGED_TABLES` transition, which
emits none, and on the skip path the transition through `SKIPPING`, whose
conditional analytics entry is omitted: the 6 transitions therefore produce
5 audit writes when populating and 4 when skipping. -/
theorem c4_audit_per_transition (w : World) (st : St)
    (hAll : ∀ s, w.fails s = none) (htr : st.trace = []) :
    auditWrites (run_pipeline prodConfig w st).1.trace +
        (if 0 < pendingTotal w then 1 else 2) =
      (specStateSeq (decide (0 < pendingTotal w))).length - 1 := by
  rw [run_pipeline_eq]
  simp only [hAll, populate_ret]
  by_cases hp : 0 < pendingTotal w
  · simp only [if_pos hp, runTail]
    simp only [log_audit_entry_trace, populate_trace, hAll, htr]
    simp only [auditWrites_append, auditWrites_cons_audit, auditWrites_cons_streams,
      auditWrites_cons_useWH, auditWrites_cons_costs, auditWrites_nil,
      auditWrites_countStmts, auditWrites_dynStatus, auditWrites_analytics,
      specStateSeq, List.append_assoc, List.cons_append, List.nil_append,
      List.length_cons, List.length_nil]
  · simp only [if_neg hp, runTail]
    simp only [log_audit_entry_trace, htr]
    simp only [auditWrites_append, auditWrites_cons_audit, auditWrites_cons_streams,
      auditWrites_cons_useWH, auditWrites_cons_costs, auditWrites_nil,
      auditWrites_countStmts, auditWrites_dynStatus,
      specStateSeq, List.append_assoc, List.cons_append, List.nil_append,
      List.length_cons, List.length_nil]

theorem c4_witness :
    (∀ s, w3.fails s = none) ∧ st0.trace = [] ∧
    auditWrites (run_pipeline prodConfig w3 st0).1.trace +
        (if 0 < pendingTotal w3 then 1 else 2) =
      (specStateSeq (decide (0 < pendingTotal w3))).length - 1 :=
  ⟨fun _ => rfl, rfl, c4_audit_per_transition w3 st0 (fun _ => rfl) rfl⟩

/-! ### C5 -/

/-- C5: whenever the interactive tier-switch directive raises (the error
that escapes `populate_analytics_tables`' component boundary), the
remaining stages are abandoned — the full statement trace ends at the
failed switch plus the single PIPELINE_ERROR audit insert, so no analytics
statement, no cost query and no completion entries are issued — exactly one
audit entry carrying the error text is written (given a writable audit
table), it is the last entry, and `run_pipeline` reports failure (exit
code 1). -/
theorem c5_tier_switch_failure_aborts (w : World) (st : St) (msg : String)
    (hint : w.fails (.useWarehouse prodConfig.interactive_warehouse) = some msg)
    (hcdc : w.fails (.useWarehouse prodConfig.cdc_warehouse) = none)
    (haud : ∀ q, w.fails (.auditInsert q) = none)
    (hp : 0 < pendingTotal w) :
    (run_pipeline prodConfig w st).2 = false ∧
    mainExit true w st = 1 ∧
    (run_pipeline prodConfig w st).1.trace =
      st.trace ++ [.streamsStatusQuery,
        .auditInsert ("STREAM_CHECK" ++ ": " ++
          ("Checked " ++ toString (streamsVal w).length ++ " streams"))] ++
      countStmts w ++ [.useWarehouse prodConfig.cdc_warehouse] ++ dynStatusStmts ++
      [.auditInsert ("DYNAMIC_TABLES" ++ ": " ++ "Checked dynamic table status"),
       .useWarehouse prodConfig.interactive_warehouse,
       .auditInsert ("PIPELINE_ERROR" ++ ": " ++ msg)] ∧
    (run_pipeline prodConfig w st).1.auditLog =
      st.auditLog ++
        [auditRow w ("STREAM_CHECK" ++ ": " ++
            ("Checked " ++ toString (streamsVal w).length ++ " streams")),
         auditRow w ("DYNAMIC_TABLES" ++ ": " ++ "Checked dynamic table status"),
         auditRow w ("PIPELINE_ERROR" ++ ": " ++ msg)] := by
  rw [run_pipeline_eq]
  simp only [hcdc, populate_ret, hint, if_pos hp]
  refine ⟨by trivial, ?_, ?_, ?_⟩
  · unfold mainExit
    rw [run_pipeline_eq]
    simp only [hcdc, populate_ret, hint, if_pos hp]
    simp
  · simp [log_audit_entry_trace, populate_trace, hint, List.append_assoc]
  · simp [log_audit_entry_spec, haud, populate_auditLog]

/-- `w3`'s data, but the interactive tier switch is down. -/
def w5 : World :=
  { w3 with fails := fun s =>
      if s = .useWarehouse "CLINICAL_INTERACTIVE_WH" then
        some "interactive tier unavailable"
      else none }

theorem c5_witness :
    w5.fails (.useWarehouse prodConfig.interactive_warehouse) =
      some "interactive tier unavailable" ∧
    w5.fails (.useWarehouse prodConfig.cdc_warehouse) = none ∧
    (∀ q, w5.fails (.auditInsert q) = none) ∧
    0 < pendingTotal w5 ∧
    (run_pipeline prodConfig w5 st0).2 = false ∧
    mainExit true w5 st0 = 1 :=
  ⟨rfl, rfl, fun _ => rfl, by decide,
    (c5_tier_switch_failure_aborts w5 st0 "interactive tier unavailable"
      rfl rfl (fun _ => rfl) (by decide)).1,
    (c5_tier_switch_failure_aborts w5 st0 "interactive tier unavailable"
      rfl rfl (fun _ => rfl) (by decide)).2.1⟩

theorem c6_witness :
    ((log_audit_entry wOk st0 "STREAM_CHECK" "ok").auditLog = st0.auditLog ∨
      (log_audit_entry wOk st0 "STREAM_CHECK" "ok").auditLog =
        st0.auditLog ++ [auditRow wOk ("STREAM_CHECK" ++ ": " ++ "ok")]) ∧
    (auditRow wOk ("STREAM_CHECK" ++ ": " ++ "ok")).execution_status = "SUCCESS" :=
  ⟨(c6_audit_status_hardcoded wOk st0 "STREAM_CHECK" "ok").2.1,
    (c6_audit_status_hardcoded wOk st0 "STREAM_CHECK" "ok").2.2⟩

theorem c7_witness :
    (get_stream_change_count w3 st0 "PATIENTS_STREAM").2 = 1 := by
  rw [c7_stream_count_fail_soft w3 st0 "PATIENTS_STREAM"]
  decide
